import Mathlib

/-!
Shallow embedding of the messaging/conversation coordinator of the Clg-Mart
repository (src/lib/messagingService.ts, src/lib/database-messaging.ts,
src/app/home/listing/[id].tsx, src/app/home/messages/[id].tsx,
src/app/home/messages/index.tsx).

The backend (a hosted relational store accessed through a client SDK) is
modelled as an explicit `Store` of table rows.  Each remote call that the
code makes is a pure function on the `Store`; calls that can fail at the
backend take an explicit `Bool` failure flag for that sub-call (the code's
`error` results).  Timestamps are a logical clock `now : Nat` that advances
on every state-changing remote call, reflecting that each call samples the
clock (DB `NOW()` defaults, or the client's `new Date()`) at a distinct
instant.  Row ids are drawn from a counter `nextId`.
-/

namespace ClgMart

/-- A row of `profiles` (id, username, avatar_url). -/
structure Profile where
  id : Nat
  username : String
  avatar_url : Option String
deriving Repr, DecidableEq

/-- A row of `listings` (only the fields the messaging code touches). -/
structure Listing where
  id : Nat
  title : String
  price : Nat
  seller_id : Nat
deriving Repr, DecidableEq

/-- A row of `conversations`.  The repository has two schema variants: the
`database-messaging.ts` schema has only `listing_id` (participants live in a
join table), while the listing-screen code (`handleMessage`,
`handleMessageSeller`) inserts direct `buyer_id`/`seller_id` columns.  We
model one table with the direct columns optional: rows created through
`MessagingService.startConversation` leave them `none`. -/
structure Conv where
  id : Nat
  listing_id : Nat
  buyer_id : Option Nat
  seller_id : Option Nat
  created_at : Nat
  updated_at : Nat
deriving Repr, DecidableEq

/-- A row of `conversation_participants`. -/
structure Part where
  conversation_id : Nat
  user_id : Nat
deriving Repr, DecidableEq

/-- A row of `messages`.  `content TEXT NOT NULL` (empty string allowed),
`created_at TIMESTAMPTZ DEFAULT NOW()`, `is_read BOOLEAN DEFAULT FALSE`
(per the schema in src/lib/database-messaging.ts). -/
structure Message where
  id : Nat
  conversation_id : Nat
  sender_id : Nat
  content : String
  created_at : Nat
  is_read : Bool
deriving Repr, DecidableEq

/-- The backend database state visible to the messaging code. -/
structure Store where
  profiles : List Profile
  listings : List Listing
  conversations : List Conv
  participants : List Part
  messages : List Message
  nextId : Nat
  now : Nat
deriving Repr, DecidableEq

/-- The `sender:profiles(username, avatar_url)` join used by the selects. -/
def findProfile (st : Store) (uid : Nat) : Option Profile :=
  st.profiles.find? (fun p => decide (p.id = uid))

/-- A message row together with its resolved sender display fields, as
returned by `sendMessage` / `getMessages` (`select('*, sender:profiles(...)')`). -/
structure MessageOut where
  msg : Message
  sender : Option Profile
deriving Repr, DecidableEq

/-- `MessagingService.startConversation(listingId, sellerId, buyerId)`
(src/lib/messagingService.ts lines 33-59): insert a `conversations` row
(only `listing_id`; timestamps default to now), then insert the two
`conversation_participants` rows.  Any error is caught and `null` is
returned; a failure of the participant insert does NOT remove the already
inserted conversation row.  There is no lookup of an existing
conversation: every call inserts. -/
def startConversation (st : Store) (listingId sellerId buyerId : Nat)
    (convFail partFail : Bool) : Option Nat × Store :=
  if convFail then (none, st)
  else
    let cid := st.nextId
    let conv : Conv := ⟨cid, listingId, none, none, st.now, st.now⟩
    let st1 : Store := { st with conversations := st.conversations ++ [conv],
                                 nextId := st.nextId + 1, now := st.now + 1 }
    if partFail then (none, st1)
    else
      let st2 : Store := { st1 with
        participants := st1.participants ++ [⟨cid, sellerId⟩, ⟨cid, buyerId⟩],
        now := st1.now + 1 }
      (some cid, st2)

/-- The existence filter of `handleMessage` (src/app/home/listing/[id].tsx
lines 471-476): `.eq('listing_id', L).eq('buyer_id', buyer).eq('seller_id',
seller)` — one fixed participant-order permutation. -/
def hmMatch (listingId buyerId sellerId : Nat) (c : Conv) : Bool :=
  decide (c.listing_id = listingId ∧ c.buyer_id = some buyerId ∧
    c.seller_id = some sellerId)

/-- `handleMessage` (src/app/home/listing/[id].tsx lines 456-516), the
start-or-get flow of the listing screen: look up conversations for this
exact (listing, buyer, seller) triple; if any exists use the first one's
id, else insert a new row with `buyer_id`/`seller_id` set and use its id.
`insertFail` models the `conversationError` branch (alert, no id). -/
def handleMessage (st : Store) (listingId buyerId sellerId : Nat)
    (insertFail : Bool) : Option Nat × Store :=
  match st.conversations.filter (hmMatch listingId buyerId sellerId) with
  | c :: _ => (some c.id, st)
  | [] =>
    if insertFail then (none, st)
    else
      let c : Conv := ⟨st.nextId, listingId, some buyerId, some sellerId,
        st.now, st.now⟩
      (some c.id, { st with conversations := st.conversations ++ [c],
                            nextId := st.nextId + 1, now := st.now + 1 })

/-- The existence filter of `handleMessageSeller` (src/app/home/listing/
[id].tsx lines 347-353 and src/unnamed/part_005): two chained `.or`
filters — caller is buyer or seller, AND the other party is buyer or
seller — intersected with `.eq('listing_id', L)`; both participant-order
permutations match. -/
def hmsMatch (listingId meId otherId : Nat) (c : Conv) : Bool :=
  decide (c.listing_id = listingId ∧
    (c.buyer_id = some meId ∨ c.seller_id = some meId) ∧
    (c.buyer_id = some otherId ∨ c.seller_id = some otherId))

/-- `handleMessageSeller` (src/app/home/listing/[id].tsx lines 334-384):
the lookup uses `.single()`, whose data is non-null exactly when the filter
matches exactly one row; otherwise a new conversation row with
`buyer_id := me`, `seller_id := other` is inserted. -/
def handleMessageSeller (st : Store) (listingId meId otherId : Nat)
    (insertFail : Bool) : Option Nat × Store :=
  match st.conversations.filter (hmsMatch listingId meId otherId) with
  | [c] => (some c.id, st)
  | _ =>
    if insertFail then (none, st)
    else
      let c : Conv := ⟨st.nextId, listingId, some meId, some otherId,
        st.now, st.now⟩
      (some c.id, { st with conversations := st.conversations ++ [c],
                            nextId := st.nextId + 1, now := st.now + 1 })

/-- `MessagingService.sendMessage(conversationId, senderId, content)`
(src/lib/messagingService.ts lines 62-87): insert a `messages` row (content
exactly as given — the service performs no validation or trimming;
`is_read` and `created_at` come from the column defaults), selecting it
back with the sender profile join; then update the parent conversation's
`updated_at` to a freshly sampled `new Date().toISOString()` — a second
clock read, taken after the insert.  The result of that update is not
inspected (`updFail` makes it a no-op), so its failure neither rolls back
the message nor changes the returned value.  `insertFail` models the
insert erroring, which is caught and returns `null`. -/
def sendMessage (st : Store) (conversationId senderId : Nat) (content : String)
    (insertFail updFail : Bool) : Option MessageOut × Store :=
  if insertFail then (none, st)
  else
    let m : Message := ⟨st.nextId, conversationId, senderId, content, st.now, false⟩
    let out : MessageOut := ⟨m, findProfile st senderId⟩
    let st1 : Store := { st with messages := st.messages ++ [m],
                                 nextId := st.nextId + 1, now := st.now + 1 }
    let st2 : Store :=
      if updFail then st1
      else { st1 with
        conversations := st1.conversations.map
          (fun c => if c.id = conversationId then { c with updated_at := st1.now } else c),
        now := st1.now + 1 }
    (some out, st2)

/-- JavaScript `String.prototype.trim()`: strip leading and trailing
whitespace. -/
def jsTrim (s : String) : String :=
  ⟨((s.data.dropWhile Char.isWhitespace).reverse.dropWhile Char.isWhitespace).reverse⟩

/-- The chat screen's send handler (src/app/home/messages/[id].tsx lines
132-161): `if (!newMessage.trim() || !currentUser || !conversation) return;`
— a silent early return (no insert, no error raised) when the trimmed
content is empty, the user is not loaded, or the conversation is not
loaded; otherwise it inserts the TRIMMED content.  An insert error is
alerted and nothing else changes. -/
def uiSendMessage (st : Store) (conversationId : Nat) (currentUser : Option Nat)
    (convLoaded : Bool) (content : String) (insertFail : Bool) : Store :=
  match currentUser with
  | none => st
  | some u =>
    if jsTrim content = "" ∨ convLoaded = false then st
    else if insertFail then st
    else { st with
      messages := st.messages ++
        [⟨st.nextId, conversationId, u, jsTrim content, st.now, false⟩],
      nextId := st.nextId + 1, now := st.now + 1 }

/-- The `order('created_at', { ascending: true })` comparison on messages. -/
def msgLE (a b : Message) : Prop := a.created_at ≤ b.created_at

instance : DecidableRel msgLE := fun a b => Nat.decLe a.created_at b.created_at

instance : IsTotal Message msgLE := ⟨fun a b => Nat.le_total a.created_at b.created_at⟩

instance : IsTrans Message msgLE := ⟨fun _ _ _ => Nat.le_trans⟩

/-- `MessagingService.getMessages(conversationId)` (src/lib/
messagingService.ts lines 149-163): select all messages of the
conversation with the sender join, ordered by `created_at` ascending.
Errors are caught and an empty list is returned. -/
def getMessages (st : Store) (conversationId : Nat) (fail : Bool) : List MessageOut :=
  if fail then []
  else (List.insertionSort msgLE
      (st.messages.filter (fun m => decide (m.conversation_id = conversationId)))).map
    (fun m => ⟨m, findProfile st m.sender_id⟩)

/-- The row transformation of `MessagingService.markMessagesAsRead`'s
update statement: `update({ is_read: true }).eq('conversation_id',
c).neq('sender_id', u)`. -/
def markReadFn (conversationId userId : Nat) (m : Message) : Message :=
  if m.conversation_id = conversationId ∧ m.sender_id ≠ userId then
    { m with is_read := true }
  else m

/-- `MessagingService.markMessagesAsRead(conversationId, userId)`
(src/lib/messagingService.ts lines 166-180): set `is_read := true` on
every message of the conversation whose sender is not `userId`; returns
`true` on success, `false` when the update errors (caught). -/
def markMessagesAsRead (st : Store) (conversationId userId : Nat)
    (fail : Bool) : Bool × Store :=
  if fail then (false, st)
  else (true, { st with messages := st.messages.map (markReadFn conversationId userId) })

/-- One participant entry of a conversation summary, as produced by the
transform in `getConversations` (`p.profile[0]?.username || ''`). -/
structure PartView where
  user_id : Nat
  username : String
  avatar_url : Option String
deriving Repr, DecidableEq

/-- One element of `getConversations`' result (the `Conversation`
interface of src/lib/messagingService.ts). -/
structure ConvSummary where
  id : Nat
  listing_id : Nat
  created_at : Nat
  updated_at : Nat
  listing_title : Option String
  listing_price : Option Nat
  participants : List PartView
  latest_message : Option Message
deriving Repr, DecidableEq

/-- Membership of `userId` in a conversation's `conversation_participants`
rows (the `.eq('conversation_participants.user_id', userId)` restriction). -/
def userParticipates (st : Store) (userId cid : Nat) : Bool :=
  st.participants.any (fun p => decide (p.conversation_id = cid ∧ p.user_id = userId))

/-- The `order('updated_at', { ascending: false })` comparison. -/
def convGE (a b : Conv) : Prop := b.updated_at ≤ a.updated_at

instance : DecidableRel convGE := fun a b => Nat.decLe b.updated_at a.updated_at

instance : IsTotal Conv convGE := ⟨fun a b => Nat.le_total b.updated_at a.updated_at⟩

instance : IsTrans Conv convGE := ⟨fun _ _ _ h1 h2 => Nat.le_trans h2 h1⟩

/-- The per-row transform of `MessagingService.getConversations`
(src/lib/messagingService.ts lines 119-139): listing fields through the
`conversations_with_details` LEFT JOIN, participants with profile lookup,
and `latest_message := conv.latest_message?.[0]` — the FIRST element of
the embedded `messages` selection, which carries no order or limit clause,
so the element taken is the first in storage order, not necessarily the
newest. -/
def summarize (st : Store) (c : Conv) : ConvSummary :=
  { id := c.id
    listing_id := c.listing_id
    created_at := c.created_at
    updated_at := c.updated_at
    listing_title :=
      (st.listings.find? (fun l => decide (l.id = c.listing_id))).map (fun l => l.title)
    listing_price :=
      (st.listings.find? (fun l => decide (l.id = c.listing_id))).map (fun l => l.price)
    participants :=
      (st.participants.filter (fun p => decide (p.conversation_id = c.id))).map
        (fun p =>
          ⟨p.user_id, ((findProfile st p.user_id).map (fun q => q.username)).getD "",
            (findProfile st p.user_id).bind (fun q => q.avatar_url)⟩)
    latest_message :=
      (st.messages.filter (fun m => decide (m.conversation_id = c.id))).head? }

/-- `MessagingService.getConversations(userId)` (src/lib/
messagingService.ts lines 90-146): the conversations the user participates
in, ordered by `updated_at` descending, each passed through `summarize`.
Errors are caught and an empty list is returned. -/
def getConversations (st : Store) (userId : Nat) (fail : Bool) : List ConvSummary :=
  if fail then []
  else (List.insertionSort convGE
      (st.conversations.filter (fun c => userParticipates st userId c.id))).map
    (summarize st)

/-! ## Concrete fixtures used by witnesses and counterexamples -/

/-- A store with two profiles and one listing but no conversations yet. -/
def store0 : Store :=
  { profiles := [⟨7, "alice", none⟩, ⟨8, "bob", some "a.png"⟩]
    listings := [⟨1, "bike", 50, 8⟩]
    conversations := []
    participants := []
    messages := []
    nextId := 10
    now := 5 }

/-- A store with one conversation (id 0) whose two messages are stored out
of creation-time order. -/
def storeMsgs : Store :=
  { profiles := [⟨7, "alice", none⟩, ⟨8, "bob", none⟩]
    listings := [⟨1, "bike", 50, 8⟩]
    conversations := [⟨0, 1, some 7, some 8, 0, 4⟩]
    participants := [⟨0, 7⟩, ⟨0, 8⟩]
    messages := [⟨2, 0, 8, "yes", 9, false⟩, ⟨1, 0, 7, "hi", 5, false⟩]
    nextId := 3
    now := 12 }

/-! ## Claims -/

/-- C1, counterexample.  `MessagingService.startConversation` performs no
existence lookup: calling it twice in sequence for the same
(listing, seller, buyer) triple returns two distinct conversation ids and
leaves two `conversations` rows for the listing, refuting the claim that
the second call reuses the first conversation. -/
theorem C1_counterexample :
    (startConversation store0 1 8 7 false false).1 = some 10 ∧
    (startConversation (startConversation store0 1 8 7 false false).2
        1 8 7 false false).1 = some 11 ∧
    (startConversation store0 1 8 7 false false).1 ≠
      (startConversation (startConversation store0 1 8 7 false false).2
        1 8 7 false false).1 ∧
    ((startConversation (startConversation store0 1 8 7 false false).2
          1 8 7 false false).2.conversations.filter
        (fun c => decide (c.listing_id = 1))).length = 2 := by
  decide

/-- C1, amended.  The listing screen's `handleMessage` start-or-get flow IS
sequentially idempotent: called twice with the same (listing, buyer,
seller) and no backend failure, it returns a conversation id both times,
the second call returns the same id and changes nothing, and the pair of
calls creates at most one new `conversations` row. -/
theorem C1_theorem (st : Store) (L A B : Nat) :
    (handleMessage st L A B false).1.isSome = true ∧
    handleMessage (handleMessage st L A B false).2 L A B false =
      ((handleMessage st L A B false).1, (handleMessage st L A B false).2) ∧
    (handleMessage st L A B false).2.conversations.length ≤
      st.conversations.length + 1 := by
  cases h : st.conversations.filter (hmMatch L A B) with
  | nil =>
    refine ⟨?_, ?_, ?_⟩ <;>
      simp [handleMessage, h, List.filter_append, hmMatch]
  | cons c t =>
    refine ⟨?_, ?_, ?_⟩ <;>
      simp [handleMessage, h]

/-- C2, counterexample.  `handleMessage`'s existence lookup filters on
`buyer_id = caller` and `seller_id = other` in that exact order: after a
first call with (listing 1, buyer 7, seller 8) created conversation 10, the
swapped call (buyer 8, seller 7) does not find it and creates a second
conversation 11, refuting order-independence of the claim's lookup. -/
theorem C2_counterexample :
    (handleMessage store0 1 7 8 false).1 = some 10 ∧
    (handleMessage (handleMessage store0 1 7 8 false).2 1 8 7 false).1 = some 11 ∧
    (handleMessage store0 1 7 8 false).1 ≠
      (handleMessage (handleMessage store0 1 7 8 false).2 1 8 7 false).1 ∧
    (handleMessage (handleMessage store0 1 7 8 false).2
        1 8 7 false).2.conversations.length = 2 := by
  decide

/-- C2, amended.  `handleMessageSeller`'s or-based lookup is
participant-order independent: its filter predicate is symmetric in the two
participants, and when no conversation for the pair exists yet, a call with
(me, other) followed by a call with roles swapped resolves both times to
the same (single, newly created) conversation id and the second call
changes nothing. -/
theorem C2_theorem (st : Store) (L a b : Nat)
    (hnone : st.conversations.filter (hmsMatch L a b) = []) :
    (∀ c : Conv, hmsMatch L a b c = hmsMatch L b a c) ∧
    (handleMessageSeller st L a b false).1 = some st.nextId ∧
    (handleMessageSeller (handleMessageSeller st L a b false).2 L b a false).1 =
      some st.nextId ∧
    (handleMessageSeller (handleMessageSeller st L a b false).2 L b a false).2 =
      (handleMessageSeller st L a b false).2 := by
  have hsymm : ∀ c : Conv, hmsMatch L a b c = hmsMatch L b a c := by
    intro c
    simp only [hmsMatch, decide_eq_decide]
    tauto
  refine ⟨hsymm, ?_, ?_, ?_⟩ <;>
    simp [handleMessageSeller, hnone, List.filter_append,
      List.filter_congr (fun c _ => (hsymm c).symm), hmsMatch]

/-- C2, witness: on the empty-conversation store, a call with (me 7,
other 8) and the swapped call both resolve to conversation 10. -/
theorem C2_witness :
    (handleMessageSeller store0 1 7 8 false).1 = some 10 ∧
    (handleMessageSeller (handleMessageSeller store0 1 7 8 false).2
        1 8 7 false).1 = some 10 := by
  have h := C2_theorem store0 1 7 8 (by decide)
  exact ⟨h.2.1, h.2.2.1⟩

/-- C3, counterexample.  `MessagingService.sendMessage` performs no content
validation: on `storeMsgs`, whose conversation 0 exists and has sender 7
as a participant (so the insert is realizable under the schema's foreign
key and policies), a call with empty content succeeds (returns the created
message, with empty content) and inserts a `messages` row, refuting the
claim that the call fails with a validation error and leaves the message
store unchanged. -/
theorem C3_counterexample :
    (⟨0, 1, some 7, some 8, 0, 4⟩ : Conv) ∈ storeMsgs.conversations ∧
    userParticipates storeMsgs 7 0 = true ∧
    (sendMessage storeMsgs 0 7 "" false false).1.isSome = true ∧
    ((sendMessage storeMsgs 0 7 "" false false).1.map
      (fun o => o.msg.content)) = some "" ∧
    (sendMessage storeMsgs 0 7 "" false false).2.messages.length =
      storeMsgs.messages.length + 1 := by
  decide

/-- C3, amended.  For a conversation that exists and in which the sender
participates, whitespace-only content is rejected only at the chat screen:
its send handler silently returns with the store unchanged (no insert, and
no error is raised) when the trimmed content is empty, while
`MessagingService.sendMessage` itself inserts a message row and returns
success for the very same content. -/
theorem C3_theorem (st : Store) (cid u : Nat) (loaded : Bool)
    (content : String) (ifail : Bool) (h : jsTrim content = "")
    (hconv : ∃ c ∈ st.conversations, c.id = cid)
    (hsender : userParticipates st u cid = true) :
    uiSendMessage st cid (some u) loaded content ifail = st ∧
    (sendMessage st cid u content false false).2.messages.length =
      st.messages.length + 1 ∧
    (sendMessage st cid u content false false).1.isSome = true := by
  refine ⟨?_, ?_, ?_⟩ <;> simp [uiSendMessage, h, sendMessage]

/-- C3, witness: on `storeMsgs`' existing conversation 0 with participant
7, the single-space message " " trims to empty; the screen handler leaves
the store unchanged while the service inserts it. -/
theorem C3_witness :
    uiSendMessage storeMsgs 0 (some 7) true " " false = storeMsgs ∧
    (sendMessage storeMsgs 0 7 " " false false).2.messages.length =
      storeMsgs.messages.length + 1 := by
  have h := C3_theorem storeMsgs 0 7 true " " false (by decide) (by decide)
    (by decide)
  exact ⟨h.1, h.2.1⟩

/-- The row transform of the mark-read update is idempotent. -/
theorem markReadFn_idem (c r : Nat) (m : Message) :
    markReadFn c r (markReadFn c r m) = markReadFn c r m := by
  by_cases h : m.conversation_id = c ∧ m.sender_id ≠ r <;>
    simp [markReadFn, h]

/-- C4.  `markMessagesAsRead(c, reader)` rewrites the message table row by
row: a row whose sender is `reader` is left unchanged, every other row of
conversation `c` gets `is_read := true` (in particular every previously
unread one), and running the operation twice produces exactly the state of
running it once. -/
theorem C4_theorem (st : Store) (c reader : Nat) :
    (markMessagesAsRead st c reader false).2.messages =
      st.messages.map (markReadFn c reader) ∧
    (∀ m : Message, m.sender_id = reader → markReadFn c reader m = m) ∧
    (∀ m : Message, m.conversation_id = c → m.sender_id ≠ reader →
      markReadFn c reader m = { m with is_read := true }) ∧
    markMessagesAsRead (markMessagesAsRead st c reader false).2 c reader false =
      markMessagesAsRead st c reader false := by
  refine ⟨rfl, ?_, ?_, ?_⟩
  · intro m hm
    simp [markReadFn, hm]
  · intro m hc hs
    simp [markReadFn, hc, hs]
  · have hmap : ∀ l : List Message,
        (l.map (markReadFn c reader)).map (markReadFn c reader) =
          l.map (markReadFn c reader) := by
      intro l
      induction l with
      | nil => rfl
      | cons a t ih => simp [markReadFn_idem, ih]
    simp [markMessagesAsRead, hmap]

/-- C4, witness: a message sent by the reader keeps its flag, a message by
the other participant is flipped to read. -/
theorem C4_witness :
    markReadFn 3 7 ⟨0, 3, 7, "hi", 1, false⟩ = ⟨0, 3, 7, "hi", 1, false⟩ ∧
    markReadFn 3 7 ⟨1, 3, 8, "yo", 2, false⟩ = ⟨1, 3, 8, "yo", 2, true⟩ := by
  have h := C4_theorem store0 3 7
  exact ⟨h.2.1 ⟨0, 3, 7, "hi", 1, false⟩ rfl,
    h.2.2.1 ⟨1, 3, 8, "yo", 2, false⟩ rfl (by decide)⟩

/-- C5.  `getMessages(c)` returns exactly the messages of conversation `c`
(as a permutation of the filtered table, whatever the insertion
interleaving), sorted by `created_at` ascending; when the creation times
are pairwise distinct the order is strictly ascending. -/
theorem C5_theorem (st : Store) (c : Nat) :
    ((getMessages st c false).map MessageOut.msg).Perm
      (st.messages.filter (fun m => decide (m.conversation_id = c))) ∧
    ((getMessages st c false).map MessageOut.msg).Sorted msgLE ∧
    ((st.messages.filter (fun m => decide (m.conversation_id = c))).Pairwise
        (fun a b => a.created_at ≠ b.created_at) →
      ((getMessages st c false).map MessageOut.msg).Sorted
        (fun a b => a.created_at < b.created_at)) := by
  have hmap : (getMessages st c false).map MessageOut.msg =
      List.insertionSort msgLE
        (st.messages.filter (fun m => decide (m.conversation_id = c))) := by
    simp only [getMessages, if_neg, Bool.false_eq_true, not_false_eq_true,
      List.map_map]
    exact List.map_id'' (fun m => rfl) _
  refine ⟨?_, ?_, ?_⟩
  · rw [hmap]
    exact List.perm_insertionSort msgLE _
  · rw [hmap]
    exact List.sorted_insertionSort msgLE _
  · intro hne
    rw [hmap]
    have hperm := List.perm_insertionSort msgLE
      (st.messages.filter (fun m => decide (m.conversation_id = c)))
    have hne2 := List.Pairwise.perm hne hperm.symm (fun h => Ne.symm h)
    have hsorted := List.sorted_insertionSort msgLE
      (st.messages.filter (fun m => decide (m.conversation_id = c)))
    exact (hsorted.and hne2).imp
      (fun h => Nat.lt_of_le_of_ne h.1 h.2)

/-- C5, witness: on a store whose two messages of conversation 0 are held
out of time order, the result is strictly ascending in `created_at`. -/
theorem C5_witness :
    ((getMessages storeMsgs 0 false).map MessageOut.msg).Sorted
      (fun a b => a.created_at < b.created_at) := by
  exact (C5_theorem storeMsgs 0).2.2 (by decide)

/-- The `order('created_at', { ascending: false })` comparison on
messages (used by the spec-described latest-message lookup and by the
messages-index screen's per-conversation query). -/
def msgGE (a b : Message) : Prop := b.created_at ≤ a.created_at

instance : DecidableRel msgGE := fun a b => Nat.decLe b.created_at a.created_at

instance : IsTotal Message msgGE := ⟨fun a b => Nat.le_total b.created_at a.created_at⟩

instance : IsTrans Message msgGE := ⟨fun _ _ _ h1 h2 => Nat.le_trans h2 h1⟩

/-- Modelled from the spec: "a separate latest-message lookup (content,
created_at, limit 1, ordered by created_at descending)" — select the
conversation's messages ordered by `created_at` descending and take the
first row.  Stated only for comparison against what
`MessagingService.getConversations` actually computes. -/
def specLatestLookup (st : Store) (cid : Nat) : Option Message :=
  (List.insertionSort msgGE
    (st.messages.filter (fun m => decide (m.conversation_id = cid)))).head?

/-- A store whose single conversation holds two messages stored with the
OLDER one first. -/
def storeC6 : Store :=
  { profiles := [⟨7, "alice", none⟩, ⟨8, "bob", none⟩]
    listings := [⟨1, "bike", 50, 8⟩]
    conversations := [⟨0, 1, none, none, 0, 4⟩]
    participants := [⟨0, 7⟩, ⟨0, 8⟩]
    messages := [⟨1, 0, 7, "hi", 5, false⟩, ⟨2, 0, 8, "newer", 9, false⟩]
    nextId := 3
    now := 12 }

/-- C6, counterexample.  `MessagingService.getConversations` does not
perform the separate one-row `created_at`-descending lookup the claim
describes: it takes the FIRST element of an embedded, unordered messages
selection.  On `storeC6` the preview it returns is the `created_at = 5`
message, while the lookup the claim describes yields the `created_at = 9`
message of the same conversation. -/
theorem C6_counterexample :
    ((getConversations storeC6 7 false).map (fun s => s.latest_message)) =
      [some ⟨1, 0, 7, "hi", 5, false⟩] ∧
    specLatestLookup storeC6 0 = some ⟨2, 0, 8, "newer", 9, false⟩ ∧
    ((getConversations storeC6 7 false).map (fun s => s.latest_message)) ≠
      [specLatestLookup storeC6 0] := by
  decide

/-- C6, amended.  `getConversations(u)` returns a summary of exactly the
conversations in which `u` participates, ordered by `updated_at`
descending, and a conversation with no messages yields an undefined
(`none`) latest message rather than an error; but the `latest_message`
field is the first element of the embedded messages selection (storage
order, no ordering or limit clause), not the result of a separate one-row
`created_at`-descending lookup. -/
theorem C6_theorem (st : Store) (u : Nat) :
    (getConversations st u false).Perm
      ((st.conversations.filter (fun c => userParticipates st u c.id)).map
        (summarize st)) ∧
    (getConversations st u false).Pairwise
      (fun a b => b.updated_at ≤ a.updated_at) ∧
    (∀ c : Conv, (summarize st c).latest_message =
      (st.messages.filter (fun m => decide (m.conversation_id = c.id))).head?) ∧
    (∀ c : Conv,
      st.messages.filter (fun m => decide (m.conversation_id = c.id)) = [] →
      (summarize st c).latest_message = none) := by
  refine ⟨?_, ?_, fun c => rfl, ?_⟩
  · exact (List.perm_insertionSort convGE _).map (summarize st)
  · exact (List.sorted_insertionSort convGE _).map (summarize st)
      (fun a b h => h)
  · intro c h
    simp [summarize, h]

/-- C6, witness: on `storeC6` the single summary row is returned sorted,
and a conversation id with no messages gets a `none` latest message. -/
theorem C6_witness :
    (getConversations storeC6 7 false).Pairwise
      (fun a b => b.updated_at ≤ a.updated_at) ∧
    (summarize storeC6 ⟨5, 2, none, none, 0, 0⟩).latest_message = none := by
  have h := C6_theorem storeC6 7
  exact ⟨h.2.1, h.2.2.2 ⟨5, 2, none, none, 0, 0⟩ (by decide)⟩

/-- A store with one conversation (stale `updated_at = 0`) and the sender's
profile present, clock at 5. -/
def storeC7 : Store :=
  { profiles := [⟨7, "alice", some "av.png"⟩]
    listings := [⟨1, "bike", 50, 8⟩]
    conversations := [⟨0, 1, none, none, 0, 0⟩]
    participants := [⟨0, 7⟩, ⟨0, 8⟩]
    messages := []
    nextId := 1
    now := 5 }

/-- C7, counterexample.  `sendMessage` samples the clock twice: the
message row is created at the insert's time (5), while the conversation's
`updated_at` is set from a separate `new Date()` read taken after the
insert (6) — NOT "the same timestamp as the inserted message's creation
timestamp" as the claim states. -/
theorem C7_counterexample :
    ((sendMessage storeC7 0 7 "hi" false false).1.map
      (fun o => o.msg.created_at)) = some 5 ∧
    ((sendMessage storeC7 0 7 "hi" false false).2.conversations.map
      Conv.updated_at) = [6] ∧
    (5 : Nat) ≠ 6 := by
  decide

/-- C7, amended.  A successful `sendMessage(c, s, content)` inserts one new
message row with `is_read = false` and the current timestamp, returns it
with the sender's resolved profile, and then sets the parent conversation's
`updated_at` to a current timestamp freshly sampled AFTER the insert
(one clock step later than the message's `created_at`). -/
theorem C7_theorem (st : Store) (cid sid : Nat) (content : String) :
    (sendMessage st cid sid content false false).1 =
      some ⟨⟨st.nextId, cid, sid, content, st.now, false⟩, findProfile st sid⟩ ∧
    (sendMessage st cid sid content false false).2.messages =
      st.messages ++ [⟨st.nextId, cid, sid, content, st.now, false⟩] ∧
    (∀ c ∈ st.conversations, c.id = cid →
      ({ c with updated_at := st.now + 1 } : Conv) ∈
        (sendMessage st cid sid content false false).2.conversations) ∧
    st.now < st.now + 1 := by
  refine ⟨rfl, rfl, ?_, Nat.lt_succ_self _⟩
  intro c hc hid
  have hfn : (fun c : Conv =>
      if c.id = cid then { c with updated_at := st.now + 1 } else c) c =
      { c with updated_at := st.now + 1 } := by
    simp [hid]
  exact hfn ▸ List.mem_map_of_mem _ hc

/-- C7, witness: on `storeC7`, the created message is returned with
alice's profile resolved and the conversation row ends at
`updated_at = 6`. -/
theorem C7_witness :
    (sendMessage storeC7 0 7 "hi" false false).1 =
      some ⟨⟨1, 0, 7, "hi", 5, false⟩, some ⟨7, "alice", some "av.png"⟩⟩ ∧
    (⟨0, 1, none, none, 0, 6⟩ : Conv) ∈
      (sendMessage storeC7 0 7 "hi" false false).2.conversations := by
  have h := C7_theorem storeC7 0 7 "hi"
  refine ⟨?_, ?_⟩
  · simpa using h.1
  · simpa using h.2.2.1 ⟨0, 1, none, none, 0, 0⟩ (by decide) rfl

/-- C8.  When the message insert succeeds but the follow-up
conversation-`updated_at` update fails, `sendMessage` still returns the
created message with its resolved sender, the inserted message row stays
in the store (no rollback), and the conversations table is simply left
unchanged — the failure is not surfaced. -/
theorem C8_theorem (st : Store) (cid sid : Nat) (content : String) :
    (sendMessage st cid sid content false true).1 =
      some ⟨⟨st.nextId, cid, sid, content, st.now, false⟩, findProfile st sid⟩ ∧
    (sendMessage st cid sid content false true).2.messages =
      st.messages ++ [⟨st.nextId, cid, sid, content, st.now, false⟩] ∧
    (sendMessage st cid sid content false true).2.conversations =
      st.conversations := by
  exact ⟨rfl, rfl, rfl⟩

/-- C9, counterexample.  A backend failure in `getConversations` or
`getMessages` is reported as an empty list — exactly the value a
successful call returns on a store with no data for the user, so the
failure is NOT distinguishable from an ordinary empty success, refuting
the claim's propagation policy for these two operations. -/
theorem C9_counterexample :
    getConversations storeMsgs 7 true = getConversations store0 7 false ∧
    getConversations storeMsgs 7 true = [] ∧
    (getConversations storeMsgs 7 false).length = 1 ∧
    getMessages storeMsgs 0 true = getMessages store0 0 false ∧
    (getMessages storeMsgs 0 false).length = 2 := by
  decide

/-- C9, amended.  The write operations do signal failure explicitly:
`startConversation` and `sendMessage` return `null` and
`markMessagesAsRead` returns `false` (vs `true` on success); but the read
operations `getConversations` and `getMessages` report a backend failure
as an empty list, indistinguishable from a successful empty result. -/
theorem C9_theorem (st : Store) (u cid L s b : Nat) (content : String) :
    (startConversation st L s b true false).1 = none ∧
    (sendMessage st cid s content true false).1 = none ∧
    (markMessagesAsRead st cid u true).1 = false ∧
    (markMessagesAsRead st cid u false).1 = true ∧
    getConversations st u true = [] ∧
    getMessages st cid true = [] := by
  exact ⟨rfl, rfl, rfl, rfl, rfl, rfl⟩

/-- C10.  `startConversation` inserts the conversation row first; when the
participant insert then fails, the call returns `null`, the already
inserted conversation row is NOT removed, and no participant row exists
for it — a failed call leaves behind a conversation with zero
participants. -/
theorem C10_theorem (st : Store) (L s b : Nat)
    (hfresh : ∀ p ∈ st.participants, p.conversation_id ≠ st.nextId) :
    (startConversation st L s b false true).1 = none ∧
    (startConversation st L s b false true).2.conversations =
      st.conversations ++ [⟨st.nextId, L, none, none, st.now, st.now⟩] ∧
    (startConversation st L s b false true).2.participants =
      st.participants ∧
    ((startConversation st L s b false true).2.participants.filter
      (fun p => decide (p.conversation_id = st.nextId))) = [] := by
  refine ⟨rfl, rfl, rfl, ?_⟩
  rw [show (startConversation st L s b false true).2.participants =
    st.participants from rfl]
  rw [List.filter_eq_nil_iff]
  intro p hp
  simpa using hfresh p hp

/-- C10, witness: on `store0` the failed call returns `null` yet leaves one
conversation row with an empty participant set. -/
theorem C10_witness :
    (startConversation store0 1 8 7 false true).1 = none ∧
    (startConversation store0 1 8 7 false true).2.conversations.length = 1 ∧
    (startConversation store0 1 8 7 false true).2.participants = [] := by
  have h := C10_theorem store0 1 8 7 (by decide)
  refine ⟨h.1, ?_, h.2.2.1⟩
  rw [h.2.1]
  rfl

end ClgMart
